import Mathlib

/-!
Shallow embedding of the CPP_Check_GUI application (src/main.rs).

The program is a GTK front-end around the external `cppcheck` tool.  Its own
logic lives in the `build_ui` function: a startup tool-availability probe, a
directory-selection dialog response handler, and four button-click closures
(run cppcheck, generate HTML report, generate PDF report, install missing
dependencies).  Each closure is embedded here as a pure function from the
application state and an environment (describing the outcomes of the external
interactions the closure performs) to the new state together with the list of
external effects the closure attempts.
-/

namespace CppcheckGui

/-- Captured output of a subprocess, as produced by Rust `Command::output()`
on success: the exit status and the captured stdout and stderr (the Rust code
reads them through `String::from_utf8_lossy`, so they are modelled as
strings). -/
structure ProcOutput where
  exitCode : Int
  stdout : String
  stderr : String
deriving Repr, DecidableEq

/-- Result of attempting to launch a subprocess: `Command::output()` returns
`Ok(out)` when the child could be spawned and waited for, and `Err(_)` when
the launch itself failed.  The error payload is irrelevant to the program
(every call site only pattern-matches on `Ok`/`Err`). -/
abbrev LaunchResult := Except Unit ProcOutput

/-- External effects a handler attempts: spawning a subprocess
(`Command::output()`), writing a file (`fs::write`), removing a file (never
performed by this program, present so that its absence can be stated), and
opening a URI with the platform default handler
(`AppInfo::launch_default_for_uri`). -/
inductive Effect where
  | runProcess (program : String) (args : List String)
  | writeFile (file : String) (contents : String)
  | removeFile (file : String)
  | openUri (uri : String)
deriving Repr, DecidableEq

/-- The mutable UI state of `build_ui`: the shared `project_path` slot, the
four severity check buttons, the sensitivity of the three action buttons and
of the install button, the label of the select button, the progress-bar
fraction, and the log text buffer (modelled as the ordered list of appended
chunks). -/
structure AppState where
  projectPath : Option String
  chkError : Bool
  chkWarning : Bool
  chkStyle : Bool
  chkPerformance : Bool
  btnHtmlEnabled : Bool
  btnPdfEnabled : Bool
  installBtnEnabled : Bool
  selectBtnLabel : String
  progressFraction : Option ℚ
  log : List String
deriving Repr, DecidableEq

/-- Embeds the helper `append_text` (src/main.rs lines 322-325): insert the
chunk at the end of the text buffer. -/
def appendText (st : AppState) (text : String) : AppState :=
  { st with log := st.log ++ [text] }

/-- The state right after `build_ui` has constructed the widgets
(src/main.rs lines 37-75): no project path, Error and Warning checks active,
Style and Performance inactive, HTML and PDF buttons insensitive, install
button (when present) sensitive, empty log. -/
def initState : AppState :=
  { projectPath := none
    chkError := true
    chkWarning := true
    chkStyle := false
    chkPerformance := false
    btnHtmlEnabled := false
    btnPdfEnabled := false
    installBtnEnabled := true
    selectBtnLabel := "Select Project Directory"
    progressFraction := none
    log := [] }

/-- Environment of the startup probe: the result of running
`Command::new("which").arg(u).output()` for each executable name `u`. -/
structure ProbeEnv where
  whichResult : String → LaunchResult

/-- Embeds the availability check the program performs for one executable
(src/main.rs lines 77-91 and 116-118): the result of
`Command::new("which").arg(u).output().is_ok()`.  Note this tests only
whether the `which` helper process itself could be launched; the exit status
of `which` is never inspected. -/
def toolAvailable (env : ProbeEnv) (u : String) : Bool :=
  match env.whichResult u with
  | Except.ok _ => true
  | Except.error _ => false

/-- Spec-side definition, clearly separated from the code: following the
spec's words, the probe boolean should be true iff the executable can be
located on the system search path.  With the lookup delegated to `which`,
located means the `which` process ran and reported success (exit code 0);
any lookup error is treated identically to not found. -/
def specLocatable (env : ProbeEnv) (u : String) : Bool :=
  match env.whichResult u with
  | Except.ok out => out.exitCode == 0
  | Except.error _ => false

/-- Embeds `html_ok` (src/main.rs lines 77-80). -/
def htmlOk (env : ProbeEnv) : Bool :=
  toolAvailable env "cppcheck-htmlreport"

/-- Embeds `pdf_tool` (src/main.rs lines 81-91): the first headless browser
among google-chrome and chromium-browser whose `which` probe succeeded. -/
def pdfToolOf (env : ProbeEnv) : Option String :=
  if toolAvailable env "google-chrome" then some "google-chrome"
  else if toolAvailable env "chromium-browser" then some "chromium-browser"
  else none

/-- Embeds the `required` array (src/main.rs line 115). -/
def requiredTools : List String :=
  ["cppcheck", "cppcheck-htmlreport", "google-chrome"]

/-- Embeds `missing` (src/main.rs lines 116-120): the required tools whose
`which` probe invocation returned `Err`. -/
def missingTools (env : ProbeEnv) : List String :=
  requiredTools.filter (fun u => !toolAvailable env u)

/-- Embeds the condition under which the Install Dependencies button is
created at all (src/main.rs line 121): the missing list is non-empty. -/
def installButtonOffered (env : ProbeEnv) : Bool :=
  !(missingTools env).isEmpty

/-- Response kinds for the directory-chooser dialog: the code compares the
response against `ResponseType::Accept`; every other response is treated
alike (src/main.rs lines 164-173). -/
inductive DialogResponse where
  | accept
  | cancel
  | other
deriving Repr, DecidableEq

/-- Embeds the `dialog.connect_response` closure (src/main.rs lines 164-173):
on `Accept` with a resolvable chosen path the shared path slot and the
select-button label are replaced; on any other response, or on `Accept` with
no resolvable path, the state is left untouched.  `chosenPath` models
`d.file().and_then(|f| f.path())` rendered through `to_string_lossy`. -/
def dialogResponseHandler (r : DialogResponse) (chosenPath : Option String)
    (st : AppState) : AppState :=
  if r = DialogResponse.accept then
    match chosenPath with
    | some s => { st with projectPath := some s, selectBtnLabel := s }
    | none => st
  else st

/-- Embeds the severity list construction of the run closure
(src/main.rs lines 193-202): pushes "warning", "style", "performance" in
that order, each when its check button is active.  The Error check button is
never read. -/
def cppcheckLevels (st : AppState) : List String :=
  (if st.chkWarning then ["warning"] else []) ++
  (if st.chkStyle then ["style"] else []) ++
  (if st.chkPerformance then ["performance"] else [])

/-- Embeds the argument list of the cppcheck invocation
(src/main.rs lines 192-206): the enable argument, comma-joining the levels,
only when the level list is non-empty, then the selected path. -/
def cppcheckArgs (st : AppState) (path : String) : List String :=
  (if cppcheckLevels st = [] then []
   else ["--enable=" ++ String.intercalate "," (cppcheckLevels st)]) ++ [path]

/-- Embeds the `btn_run.connect_clicked` closure (src/main.rs lines 188-215).
The whole body is guarded by `if let Some(ref path) = *proj_run.borrow()`;
with a path present it logs the header, resets the progress bar, launches
cppcheck, appends captured stdout then stderr when the launch succeeded
(silently skipping the capture otherwise), completes the progress bar, and
unconditionally makes the HTML and PDF buttons sensitive. -/
def runCppcheckHandler (runOutcome : LaunchResult) (st : AppState) :
    AppState × List Effect :=
  match st.projectPath with
  | none => (st, [])
  | some path =>
    let st1 := appendText st ("Running cppcheck on " ++ path ++ "\n")
    let st2 := { st1 with progressFraction := some 0 }
    let args := cppcheckArgs st2 path
    let st3 :=
      match runOutcome with
      | Except.ok out => appendText (appendText st2 out.stdout) out.stderr
      | Except.error _ => st2
    let st4 := { st3 with progressFraction := some 1,
                          btnHtmlEnabled := true, btnPdfEnabled := true }
    (st4, [Effect.runProcess "cppcheck" args])

/-- Embeds `Path::new(path).file_name().and_then(|n| n.to_str())`
(src/main.rs lines 225-227): the final normal component of the path, none
when the path ends in a parent-directory component or has no normal
component. -/
def fileName (path : String) : Option String :=
  match ((path.splitOn "/").filter (fun c => c != "" && c != ".")).getLast? with
  | some last => if last = ".." then none else some last
  | none => none

/-- Environment of the HTML-generation closure: the outcomes of the
`cppcheck --xml` launch, the `fs::write` of the XML file, the
`cppcheck-htmlreport` launch, and the default-handler open attempt (the
error payload is the rendered GLib error message). -/
structure HtmlEnv where
  xmlOutcome : LaunchResult
  writeResult : Except Unit Unit
  htmlreportOutcome : LaunchResult
  openResult : Except String Unit
deriving Repr

/-- Embeds the `btn_html.connect_clicked` closure (src/main.rs lines
222-271).  With a path present it logs the header, launches
`cppcheck --xml --xml-version=2 path` (logging an error and returning when
the launch fails), writes the captured stderr to cppcheck.xml (logging
"Failed to write XML report" and returning when the write fails), launches
cppcheck-htmlreport (logging an error and returning on launch failure), logs
the saved location, and opens the report index, logging a failure message
when the open attempt errors. -/
def genHtmlHandler (env : HtmlEnv) (st : AppState) : AppState × List Effect :=
  match st.projectPath with
  | none => (st, [])
  | some path =>
    let st1 := appendText st ("Generating HTML report for " ++ path ++ "\n")
    let projectName := (fileName path).getD "project"
    let xmlFile := path ++ "/cppcheck.xml"
    let xmlArgs : List String := ["--xml", "--xml-version=2", path]
    match env.xmlOutcome with
    | Except.error _ =>
        (appendText st1 "Error running cppcheck --xml\n",
         [Effect.runProcess "cppcheck" xmlArgs])
    | Except.ok out =>
      match env.writeResult with
      | Except.error _ =>
          (appendText st1 "Failed to write XML report\n",
           [Effect.runProcess "cppcheck" xmlArgs,
            Effect.writeFile xmlFile out.stderr])
      | Except.ok _ =>
        let reportDir := path ++ "/html_report"
        let htmlArgs : List String :=
          ["--file", xmlFile, "--report-dir", reportDir, "--source-dir", path,
           "--title", "Cppcheck report - " ++ projectName]
        let effs :=
          [Effect.runProcess "cppcheck" xmlArgs,
           Effect.writeFile xmlFile out.stderr,
           Effect.runProcess "cppcheck-htmlreport" htmlArgs]
        match env.htmlreportOutcome with
        | Except.error _ =>
            (appendText st1 "Error generating HTML report\n", effs)
        | Except.ok _ =>
          let st2 :=
            appendText st1 ("HTML report saved to " ++ path ++ "/html_report\n")
          let indexUri := "file://" ++ reportDir ++ "/index.html"
          let effs2 := effs ++ [Effect.openUri indexUri]
          match env.openResult with
          | Except.ok _ => (st2, effs2)
          | Except.error e =>
              (appendText st2 ("Failed to open HTML report: " ++ e ++ "\n"),
               effs2)

/-- Environment of the PDF-generation closure: the outcome of the headless
browser launch, whether report.pdf exists afterwards
(`Path::new(&pdf_file).exists()`), and the default-handler open attempt. -/
structure PdfEnv where
  browserOutcome : LaunchResult
  pdfFileExists : Bool
  openResult : Except String Unit
deriving Repr

/-- Embeds the `btn_pdf.connect_clicked` closure (src/main.rs lines
279-317).  With a path present it logs the header; when no PDF tool was
discovered it logs "No PDF utility available" and does nothing else;
otherwise it launches the browser headless against the report index, and on
a successful launch re-checks that report.pdf now exists, logging
"PDF report was not generated" when it does not, and otherwise logging the
saved location and opening the PDF (logging a failure message when the open
attempt errors). -/
def genPdfHandler (pdfTool : Option String) (env : PdfEnv) (st : AppState) :
    AppState × List Effect :=
  match st.projectPath with
  | none => (st, [])
  | some path =>
    let st1 := appendText st ("Generating PDF report for " ++ path ++ "\n")
    let reportDir := path ++ "/html_report"
    let indexUri := "file://" ++ reportDir ++ "/index.html"
    let pdfFile := path ++ "/report.pdf"
    match pdfTool with
    | none => (appendText st1 "No PDF utility available\n", [])
    | some tool =>
      let effs :=
        [Effect.runProcess tool
          ["--headless", "--disable-gpu", "--print-to-pdf=" ++ pdfFile,
           indexUri]]
      match env.browserOutcome with
      | Except.error _ =>
          (appendText st1 "Error generating PDF report\n", effs)
      | Except.ok _ =>
        if env.pdfFileExists then
          let st2 := appendText st1 ("PDF report saved to " ++ pdfFile ++ "\n")
          let pdfUri := "file://" ++ pdfFile
          let effs2 := effs ++ [Effect.openUri pdfUri]
          match env.openResult with
          | Except.ok _ => (st2, effs2)
          | Except.error e =>
              (appendText st2 ("Failed to open PDF report: " ++ e ++ "\n"),
               effs2)
        else (appendText st1 "PDF report was not generated\n", effs)

/-- Embeds the `install_btn.connect_clicked` closure (src/main.rs lines
127-136): logs the header, launches
`sudo apt-get install -y` followed by the captured missing-tool list,
appends the installer stdout then stderr when the launch succeeded, and
unconditionally makes the install button insensitive. -/
def installHandler (deps : List String) (aptOutcome : LaunchResult)
    (st : AppState) : AppState × List Effect :=
  let st1 := appendText st "Installing missing utilities...\n"
  let st2 :=
    match aptOutcome with
    | Except.ok out => appendText (appendText st1 out.stdout) out.stderr
    | Except.error _ => st1
  ({ st2 with installBtnEnabled := false },
   [Effect.runProcess "sudo" (["apt-get", "install", "-y"] ++ deps)])

/-- Concrete state with a selected project path, used by witnesses. -/
def sampleState : AppState :=
  { initState with projectPath := some "/tmp/proj" }

/-- Concrete subprocess output, used by witnesses. -/
def sampleOutput : ProcOutput :=
  { exitCode := 0, stdout := "out", stderr := "err" }

/-- Concrete HTML environment whose XML write fails, used by witnesses. -/
def sampleHtmlEnvWriteFail : HtmlEnv :=
  { xmlOutcome := Except.ok sampleOutput
    writeResult := Except.error ()
    htmlreportOutcome := Except.ok sampleOutput
    openResult := Except.ok () }

/-- Concrete PDF environment whose browser ran but produced no file, used by
witnesses. -/
def samplePdfEnvNoFile : PdfEnv :=
  { browserOutcome := Except.ok sampleOutput
    pdfFileExists := false
    openResult := Except.ok () }

/-- Concrete PDF environment where the file exists but the open attempt
fails, used by witnesses. -/
def samplePdfEnvOpenFail : PdfEnv :=
  { browserOutcome := Except.ok sampleOutput
    pdfFileExists := true
    openResult := Except.error "boom" }

/-- Probe environment of a system where the `which` helper always runs but
always exits 1 (no required tool is on the search path). -/
def bugProbeEnv : ProbeEnv :=
  { whichResult := fun _ => Except.ok { exitCode := 1, stdout := "", stderr := "" } }

/-- Probe environment of a system where every `which` launch fails. -/
def probeEnvAllMissing : ProbeEnv :=
  { whichResult := fun _ => Except.error () }

/-- C1 counterexample: the claim that the Generate HTML and Generate PDF
buttons remain disabled when the cppcheck subprocess fails to launch is
false: from a state with a selected path and both buttons disabled, the Run
Cppcheck handler enables both buttons even when the launch fails. -/
theorem c1_counterexample :
    sampleState.btnHtmlEnabled = false ∧ sampleState.btnPdfEnabled = false ∧
    (runCppcheckHandler (Except.error ()) sampleState).1.btnHtmlEnabled = true ∧
    (runCppcheckHandler (Except.error ()) sampleState).1.btnPdfEnabled = true :=
  ⟨rfl, rfl, rfl, rfl⟩

/-- C1 (amended): after the Run Cppcheck action with a project path
selected, the Generate HTML and Generate PDF buttons are enabled whether or
not the cppcheck subprocess launched successfully; with no path selected the
action leaves the whole state unchanged and performs nothing. -/
theorem c1_run_enables_buttons (runOutcome : LaunchResult) (st : AppState) :
    (∀ path, st.projectPath = some path →
      (runCppcheckHandler runOutcome st).1.btnHtmlEnabled = true ∧
      (runCppcheckHandler runOutcome st).1.btnPdfEnabled = true) ∧
    (st.projectPath = none → runCppcheckHandler runOutcome st = (st, [])) := by
  constructor
  · intro path hp
    cases runOutcome <;> simp [runCppcheckHandler, hp, appendText]
  · intro hp
    simp [runCppcheckHandler, hp]

/-- Witness for C1: the amended theorem at a concrete state with a selected
path and a failed launch. -/
theorem c1_witness :
    (runCppcheckHandler (Except.error ()) sampleState).1.btnHtmlEnabled = true ∧
    (runCppcheckHandler (Except.error ()) sampleState).1.btnPdfEnabled = true :=
  (c1_run_enables_buttons (Except.error ()) sampleState).1 "/tmp/proj" rfl

/-- C2 (code bug): the startup probe boolean is not true iff the executable
can be located on the search path.  On a system where the `which` helper
launches but exits 1 for every tool (no required tool present), the probe
reports every tool available, the spec-side located predicate is false for
every tool, the missing list is empty and the Install Dependencies button is
never offered: the code checks only that `which` spawned, never its exit
status. -/
theorem c2_probe_spawn_check :
    toolAvailable bugProbeEnv "cppcheck-htmlreport" = true ∧
    specLocatable bugProbeEnv "cppcheck-htmlreport" = false ∧
    htmlOk bugProbeEnv = true ∧
    pdfToolOf bugProbeEnv = some "google-chrome" ∧
    missingTools bugProbeEnv = [] ∧
    installButtonOffered bugProbeEnv = false := by
  refine ⟨rfl, by decide, rfl, rfl, rfl, rfl⟩

/-- C3: for every subset of the warning/style/performance checks, the
cppcheck invocation contains the enable argument iff the subset is
non-empty, listing exactly its members comma-joined in the stable order
warning, style, performance; the Error check never affects the argument
list, and the selected path is the final argument. -/
theorem c3_enable_argument (st : AppState) (e : Bool) (path : String) :
    cppcheckArgs { st with chkError := e } path = cppcheckArgs st path ∧
    (cppcheckArgs st path).getLast? = some path ∧
    ((st.chkWarning || st.chkStyle || st.chkPerformance) = false →
      cppcheckArgs st path = [path]) ∧
    ((st.chkWarning || st.chkStyle || st.chkPerformance) = true →
      cppcheckArgs st path =
        ("--enable=" ++ String.intercalate ","
            ((if st.chkWarning then ["warning"] else []) ++
             (if st.chkStyle then ["style"] else []) ++
             (if st.chkPerformance then ["performance"] else []))) :: [path]) := by
  obtain ⟨pp, ce, cw, cs, cp, bh, bp, ib, sl, pf, lg⟩ := st
  cases cw <;> cases cs <;> cases cp <;>
    simp [cppcheckArgs, cppcheckLevels, String.intercalate]

/-- Witness for C3: the theorem at a concrete state (only Warning active)
and a concrete path, with the implications discharged. -/
theorem c3_witness :
    cppcheckArgs { sampleState with chkError := false } "/tmp/proj" =
      cppcheckArgs sampleState "/tmp/proj" ∧
    (cppcheckArgs sampleState "/tmp/proj").getLast? = some "/tmp/proj" ∧
    cppcheckArgs sampleState "/tmp/proj" =
      ("--enable=" ++ String.intercalate ","
          ((if sampleState.chkWarning then ["warning"] else []) ++
           (if sampleState.chkStyle then ["style"] else []) ++
           (if sampleState.chkPerformance then ["performance"] else []))) ::
        ["/tmp/proj"] :=
  ⟨(c3_enable_argument sampleState false "/tmp/proj").1,
   (c3_enable_argument sampleState false "/tmp/proj").2.1,
   (c3_enable_argument sampleState false "/tmp/proj").2.2.2 rfl⟩

/-- C4 counterexample: the claim that with no PDF tool discovered the
action's log output is exactly the message "No PDF utility available" is
false: the handler first appends the "Generating PDF report for ..." header
line, so the log grows by two entries, not one (it does perform no effects). -/
theorem c4_counterexample :
    (genPdfHandler none samplePdfEnvNoFile sampleState).1.log ≠
      sampleState.log ++ ["No PDF utility available\n"] ∧
    (genPdfHandler none samplePdfEnvNoFile sampleState).1.log =
      sampleState.log ++
        ["Generating PDF report for /tmp/proj\n", "No PDF utility available\n"] ∧
    (genPdfHandler none samplePdfEnvNoFile sampleState).2 = [] :=
  ⟨by decide, rfl, rfl⟩

/-- C4 (amended): with no PDF tool discovered at startup and a project path
selected, the PDF action appends exactly the "Generating PDF report for
path" header followed by "No PDF utility available", changes no other state,
and attempts no subprocess, no file write and no open. -/
theorem c4_no_pdf_tool (env : PdfEnv) (st : AppState) (path : String)
    (hp : st.projectPath = some path) :
    (genPdfHandler none env st).1 =
      { st with log := st.log ++
          ["Generating PDF report for " ++ path ++ "\n",
           "No PDF utility available\n"] } ∧
    (genPdfHandler none env st).2 = [] := by
  constructor <;> simp [genPdfHandler, hp, appendText]

/-- Witness for C4: the amended theorem at a concrete state and environment. -/
theorem c4_witness :
    (genPdfHandler none samplePdfEnvNoFile sampleState).1 =
      { sampleState with log := sampleState.log ++
          ["Generating PDF report for " ++ "/tmp/proj" ++ "\n",
           "No PDF utility available\n"] } ∧
    (genPdfHandler none samplePdfEnvNoFile sampleState).2 = [] :=
  c4_no_pdf_tool samplePdfEnvNoFile sampleState "/tmp/proj" rfl

/-- C5: with the selected-path slot empty, the Run Cppcheck, Generate HTML
and Generate PDF handlers each leave the state unchanged and perform no
effect at all: no subprocess, no file write, no log output. -/
theorem c5_no_path_noop (runOutcome : LaunchResult) (henv : HtmlEnv)
    (penv : PdfEnv) (pdfTool : Option String) (st : AppState)
    (hp : st.projectPath = none) :
    runCppcheckHandler runOutcome st = (st, []) ∧
    genHtmlHandler henv st = (st, []) ∧
    genPdfHandler pdfTool penv st = (st, []) := by
  refine ⟨?_, ?_, ?_⟩ <;>
    simp [runCppcheckHandler, genHtmlHandler, genPdfHandler, hp]

/-- Witness for C5: the theorem at the initial state, whose path slot is
empty, with concrete environments. -/
theorem c5_witness :
    runCppcheckHandler (Except.error ()) initState = (initState, []) ∧
    genHtmlHandler sampleHtmlEnvWriteFail initState = (initState, []) ∧
    genPdfHandler none samplePdfEnvNoFile initState = (initState, []) :=
  c5_no_path_noop (Except.error ()) sampleHtmlEnvWriteFail samplePdfEnvNoFile
    none initState rfl

/-- C6: in the HTML action, when the cppcheck XML run launched but the write
of cppcheck.xml fails, the effects are exactly the XML run and the attempted
write, so no cppcheck-htmlreport invocation occurs, and "Failed to write XML
report" is the last entry the action appended to the log. -/
theorem c6_write_failure_aborts (env : HtmlEnv) (st : AppState)
    (path : String) (out : ProcOutput)
    (hp : st.projectPath = some path)
    (hx : env.xmlOutcome = Except.ok out)
    (hw : env.writeResult = Except.error ()) :
    (genHtmlHandler env st).1.log =
      st.log ++ ["Generating HTML report for " ++ path ++ "\n",
                 "Failed to write XML report\n"] ∧
    (genHtmlHandler env st).2 =
      [Effect.runProcess "cppcheck" ["--xml", "--xml-version=2", path],
       Effect.writeFile (path ++ "/cppcheck.xml") out.stderr] ∧
    (∀ args, Effect.runProcess "cppcheck-htmlreport" args ∉
      (genHtmlHandler env st).2) := by
  refine ⟨?_, ?_, ?_⟩ <;> simp [genHtmlHandler, hp, hx, hw, appendText]

/-- Witness for C6: the theorem at a concrete state and environment whose
XML write fails. -/
theorem c6_witness :
    (genHtmlHandler sampleHtmlEnvWriteFail sampleState).1.log =
      sampleState.log ++
        ["Generating HTML report for " ++ "/tmp/proj" ++ "\n",
         "Failed to write XML report\n"] ∧
    (genHtmlHandler sampleHtmlEnvWriteFail sampleState).2 =
      [Effect.runProcess "cppcheck" ["--xml", "--xml-version=2", "/tmp/proj"],
       Effect.writeFile ("/tmp/proj" ++ "/cppcheck.xml") sampleOutput.stderr] :=
  ⟨(c6_write_failure_aborts sampleHtmlEnvWriteFail sampleState "/tmp/proj"
      sampleOutput rfl rfl rfl).1,
   (c6_write_failure_aborts sampleHtmlEnvWriteFail sampleState "/tmp/proj"
      sampleOutput rfl rfl rfl).2.1⟩

/-- C7: in the PDF action, when the browser launched successfully but
report.pdf does not exist afterwards, the action appends "PDF report was not
generated", its only effect is the browser invocation, and it attempts to
open no file. -/
theorem c7_pdf_not_generated (tool path : String) (env : PdfEnv)
    (st : AppState) (out : ProcOutput)
    (hp : st.projectPath = some path)
    (hb : env.browserOutcome = Except.ok out)
    (he : env.pdfFileExists = false) :
    (genPdfHandler (some tool) env st).1.log =
      st.log ++ ["Generating PDF report for " ++ path ++ "\n",
                 "PDF report was not generated\n"] ∧
    (genPdfHandler (some tool) env st).2 =
      [Effect.runProcess tool
        ["--headless", "--disable-gpu",
         "--print-to-pdf=" ++ (path ++ "/report.pdf"),
         "file://" ++ (path ++ "/html_report") ++ "/index.html"]] ∧
    (∀ uri, Effect.openUri uri ∉ (genPdfHandler (some tool) env st).2) := by
  refine ⟨?_, ?_, ?_⟩ <;> simp [genPdfHandler, hp, hb, he, appendText]

/-- Witness for C7: the theorem at a concrete state and environment where
the browser runs but produces no file. -/
theorem c7_witness :
    (genPdfHandler (some "google-chrome") samplePdfEnvNoFile sampleState).1.log =
      sampleState.log ++
        ["Generating PDF report for " ++ "/tmp/proj" ++ "\n",
         "PDF report was not generated\n"] ∧
    (genPdfHandler (some "google-chrome") samplePdfEnvNoFile sampleState).2 =
      [Effect.runProcess "google-chrome"
        ["--headless", "--disable-gpu",
         "--print-to-pdf=" ++ ("/tmp/proj" ++ "/report.pdf"),
         "file://" ++ ("/tmp/proj" ++ "/html_report") ++ "/index.html"]] :=
  ⟨(c7_pdf_not_generated "google-chrome" "/tmp/proj" samplePdfEnvNoFile
      sampleState sampleOutput rfl rfl rfl).1,
   (c7_pdf_not_generated "google-chrome" "/tmp/proj" samplePdfEnvNoFile
      sampleState sampleOutput rfl rfl rfl).2.1⟩

/-- C8: the install action invokes the package manager with exactly the list
of tools the startup probe found missing, appends the installer's captured
stdout and stderr to the log when the launch succeeded (and only the header
when the launch failed), and disables the install button in either case. -/
theorem c8_installer_behavior (penv : ProbeEnv) (aptOutcome : LaunchResult)
    (st : AppState) :
    (installHandler (missingTools penv) aptOutcome st).2 =
      [Effect.runProcess "sudo"
        (["apt-get", "install", "-y"] ++ missingTools penv)] ∧
    (installHandler (missingTools penv) aptOutcome st).1.installBtnEnabled = false ∧
    (∀ out, aptOutcome = Except.ok out →
      (installHandler (missingTools penv) aptOutcome st).1.log =
        st.log ++ ["Installing missing utilities...\n", out.stdout, out.stderr]) ∧
    (aptOutcome = Except.error () →
      (installHandler (missingTools penv) aptOutcome st).1.log =
        st.log ++ ["Installing missing utilities...\n"]) := by
  refine ⟨?_, ?_, ?_, ?_⟩
  · cases aptOutcome <;> simp [installHandler, appendText]
  · cases aptOutcome <;> simp [installHandler, appendText]
  · intro out ho
    subst ho
    simp [installHandler, appendText]
  · intro ho
    subst ho
    simp [installHandler, appendText]

/-- Witness for C8: the theorem at a probe environment where every tool is
missing and an installer launch that succeeded. -/
theorem c8_witness :
    (installHandler (missingTools probeEnvAllMissing) (Except.ok sampleOutput)
        initState).2 =
      [Effect.runProcess "sudo"
        (["apt-get", "install", "-y"] ++ missingTools probeEnvAllMissing)] ∧
    (installHandler (missingTools probeEnvAllMissing) (Except.ok sampleOutput)
        initState).1.installBtnEnabled = false ∧
    (installHandler (missingTools probeEnvAllMissing) (Except.ok sampleOutput)
        initState).1.log =
      initState.log ++
        ["Installing missing utilities...\n", sampleOutput.stdout,
         sampleOutput.stderr] :=
  ⟨(c8_installer_behavior probeEnvAllMissing (Except.ok sampleOutput) initState).1,
   (c8_installer_behavior probeEnvAllMissing (Except.ok sampleOutput) initState).2.1,
   (c8_installer_behavior probeEnvAllMissing (Except.ok sampleOutput)
      initState).2.2.1 sampleOutput rfl⟩

/-- C9: a confirmed (Accept) dialog response with a resolved chosen path
replaces the selected project path (and the select-button label) with that
path, while a cancelled dialog leaves the whole state exactly as it was. -/
theorem c9_selector_response (st : AppState) (s : String) :
    dialogResponseHandler DialogResponse.accept (some s) st =
      { st with projectPath := some s, selectBtnLabel := s } ∧
    (∀ chosen, dialogResponseHandler DialogResponse.cancel chosen st = st) := by
  constructor
  · simp [dialogResponseHandler]
  · intro chosen
    simp [dialogResponseHandler]

/-- Witness for C9: the theorem at the initial state with a concrete chosen
path, and a cancelled dialog. -/
theorem c9_witness :
    dialogResponseHandler DialogResponse.accept (some "/tmp/proj") initState =
      { initState with projectPath := some "/tmp/proj",
                       selectBtnLabel := "/tmp/proj" } ∧
    dialogResponseHandler DialogResponse.cancel none initState = initState :=
  ⟨(c9_selector_response initState "/tmp/proj").1,
   (c9_selector_response initState "/tmp/proj").2 none⟩

/-- C10: in the PDF action, when report.pdf exists after the browser run but
the default-handler open attempt fails, the action appends "Failed to open
PDF report: error" right after the "PDF report saved to path" message, the
open attempt does occur as an effect, and no file-removal effect is ever
performed. -/
theorem c10_open_failure_logged (tool path e : String) (env : PdfEnv)
    (st : AppState) (out : ProcOutput)
    (hp : st.projectPath = some path)
    (hb : env.browserOutcome = Except.ok out)
    (he : env.pdfFileExists = true)
    (ho : env.openResult = Except.error e) :
    (genPdfHandler (some tool) env st).1.log =
      st.log ++ ["Generating PDF report for " ++ path ++ "\n",
                 "PDF report saved to " ++ (path ++ "/report.pdf") ++ "\n",
                 "Failed to open PDF report: " ++ e ++ "\n"] ∧
    Effect.openUri ("file://" ++ (path ++ "/report.pdf")) ∈
      (genPdfHandler (some tool) env st).2 ∧
    (∀ f, Effect.removeFile f ∉ (genPdfHandler (some tool) env st).2) := by
  refine ⟨?_, ?_, ?_⟩ <;> simp [genPdfHandler, hp, hb, he, ho, appendText]

/-- Witness for C10: the theorem at a concrete state and environment where
the file exists but opening it fails with a concrete error. -/
theorem c10_witness :
    (genPdfHandler (some "google-chrome") samplePdfEnvOpenFail sampleState).1.log =
      sampleState.log ++
        ["Generating PDF report for " ++ "/tmp/proj" ++ "\n",
         "PDF report saved to " ++ ("/tmp/proj" ++ "/report.pdf") ++ "\n",
         "Failed to open PDF report: " ++ "boom" ++ "\n"] ∧
    Effect.openUri ("file://" ++ ("/tmp/proj" ++ "/report.pdf")) ∈
      (genPdfHandler (some "google-chrome") samplePdfEnvOpenFail sampleState).2 :=
  ⟨(c10_open_failure_logged "google-chrome" "/tmp/proj" "boom"
      samplePdfEnvOpenFail sampleState sampleOutput rfl rfl rfl rfl).1,
   (c10_open_failure_logged "google-chrome" "/tmp/proj" "boom"
      samplePdfEnvOpenFail sampleState sampleOutput rfl rfl rfl rfl).2.1⟩

end CppcheckGui
